import Mathlib

/-!
Shallow embedding of the request handlers and declared validation
constraints of `src/main.py` (a FastAPI tutorial application), together
with a model of the generic validation and binding engine that the
specification describes.  Prices and taxes are embedded as exact
rationals; Python dictionaries that back the JSON responses are embedded
as association lists in insertion order, with `dictUpdate` reproducing
the semantics of `dict.update` for a single key.
-/

namespace StudyFastapi

/-! ### Data model (`Item`, `User`, `ModelName` from src/main.py) -/

/-- The `Item` pydantic model: name, optional description (max length 300),
price (declared greater than zero), optional tax, set of tags
(embedded as a list of strings). -/
structure Item where
  name : String
  description : Option String := none
  price : ℚ
  tax : Option ℚ := none
  tags : List String := []
deriving DecidableEq, Repr

/-- The `User` pydantic model. -/
structure User where
  username : String
  full_name : Option String := none
deriving DecidableEq, Repr

/-- The `ModelName` string enum with members alexnet, resnet, lenet. -/
inductive ModelName where
  | alexnet
  | resnet
  | lenet
deriving DecidableEq, Repr

/-- The string value carried by each `ModelName` member. -/
def ModelName.value : ModelName → String
  | .alexnet => "alexnet"
  | .resnet => "resnet"
  | .lenet => "lenet"

/-! ### Responses as Python dicts in insertion order -/

/-- Values that appear in the response dictionaries of the handlers. -/
inductive RVal where
  | str (s : String)
  | int (n : Int)
  | rat (q : ℚ)
  | bool (b : Bool)
  | item (i : Item)
  | user (u : User)
  | strs (l : List String)
  | null
deriving DecidableEq, Repr

/-- A response record: a Python dict with string keys, in insertion order. -/
abbrev Response := List (String × RVal)

/-- Python `d.update({k: v})` for a single key: replace the value in place
when the key is already present, otherwise append the pair at the end. -/
def dictUpdate : Response → String → RVal → Response
  | [], k, v => [(k, v)]
  | (k', v') :: rest, k, v =>
      if k' = k then (k, v) :: rest else (k', v') :: dictUpdate rest k v

/-- Python truthiness of an optional string: `None` and `""` are falsy. -/
def strTruthy : Option String → Bool
  | none => false
  | some s => !(s = "")

/-- Python truthiness of an optional number: `None` and `0` are falsy. -/
def numTruthy : Option ℚ → Bool
  | none => false
  | some x => !(x = 0)

/-! ### The backing list and Python list slicing -/

/-- The module-level `fake_items_db` list of three one-key dicts. -/
def fake_items_db : List Response :=
  [[("item_name", RVal.str "Foo")],
   [("item_name", RVal.str "Bar")],
   [("item_name", RVal.str "Baz")]]

/-- Normalisation of one Python slice endpoint for a list of length `n`:
a negative index counts from the end, and the result is clamped to `[0, n]`. -/
def sliceIdx (n : Nat) (i : Int) : Nat :=
  min (if i < 0 then i + (n : Int) else i).toNat n

/-- Python list slicing `l[start:stop]` (step 1): the elements whose
normalised index lies in the half-open interval `[start, stop)`. -/
def pySlice (l : List α) (start stop : Int) : List α :=
  (l.take (sliceIdx l.length stop)).drop (sliceIdx l.length start)

/-! ### Handlers, translated from src/main.py -/

/-- Handler of GET / . -/
def root : Response := [("message", RVal.str "Hello World")]

/-- Handler of GET /items/ : return `fake_items_db[skip : skip + limit]`. -/
def read_item_list (skip limit : Int) : List Response :=
  pySlice fake_items_db skip (skip + limit)

/-- The dict produced by `item.dict()`: the declared fields in declaration
order, optional fields rendered as null when absent. -/
def Item.dict (i : Item) : Response :=
  [("name", RVal.str i.name),
   ("description", match i.description with
     | some d => RVal.str d
     | none => RVal.null),
   ("price", RVal.rat i.price),
   ("tax", match i.tax with
     | some t => RVal.rat t
     | none => RVal.null),
   ("tags", RVal.strs i.tags)]

/-- Handler of POST /items/ : start from `item.dict()`; when `item.tax`
is truthy (present and non-zero) add `price_with_tax = price + tax`. -/
def create_item (item : Item) : Response :=
  let item_dict := item.dict
  match item.tax with
  | some t =>
      if t = 0 then item_dict
      else dictUpdate item_dict "price_with_tax" (RVal.rat (item.price + t))
  | none => item_dict

/-- Handler of GET /items2/ : echo the list-valued query parameter. -/
def read_items2 (q : List String) : Response := [("q", RVal.strs q)]

/-- Handler of GET /items3/ : echo the optional query parameter. -/
def read_items3 (q : Option String) : Response :=
  [("q", match q with
    | some s => RVal.str s
    | none => RVal.null)]

/-- Handler of GET /items/{item_id} : start from the item id; add `q`
when truthy; add the fixed description unless `short`. -/
def read_item_detail (item_id : String) (q : Option String) (short : Bool) :
    Response :=
  let item : Response := [("item_id", RVal.str item_id)]
  let item := match q with
    | some s => if s = "" then item else dictUpdate item "q" (RVal.str s)
    | none => item
  if short then item
  else dictUpdate item "description"
    (RVal.str "This is an amazing item that has a long description")

/-- Handler of PUT /items2/{item_id} : item id, then `q` when truthy,
then the optional body item when present. -/
def update_item2 (item_id : Int) (q : Option String) (item : Option Item) :
    Response :=
  let results : Response := [("item_id", RVal.int item_id)]
  let results := match q with
    | some s => if s = "" then results else dictUpdate results "q" (RVal.str s)
    | none => results
  match item with
  | some it => dictUpdate results "item" (RVal.item it)
  | none => results

/-- Handler of PUT /items4/{item_id} : all four bound parameters echoed. -/
def update_item4 (item_id : Int) (item : Item) (user : User)
    (importance : Int) : Response :=
  [("item_id", RVal.int item_id), ("item", RVal.item item),
   ("user", RVal.user user), ("importance", RVal.int importance)]

/-- Handler of GET /models/{model_name} : first branch compares with the
member `alexnet`, second branch compares the raw value with "lenet",
final return is the fallback. -/
def get_model (model_name : ModelName) : Response :=
  if model_name = ModelName.alexnet then
    [("model_name", RVal.str model_name.value),
     ("message", RVal.str "Deep Learning FTW!")]
  else if model_name.value = "lenet" then
    [("model_name", RVal.str model_name.value),
     ("message", RVal.str "LeCNN all the images")]
  else
    [("model_name", RVal.str model_name.value),
     ("message", RVal.str "Have some residuals")]

/-- Modelled from the spec: the same dispatch "comparing by declared
member, not by raw string", three named variants with the third message
as the fallback arm for any other member. -/
def get_model_by_member (m : ModelName) : Response :=
  match m with
  | .alexnet =>
      [("model_name", RVal.str m.value),
       ("message", RVal.str "Deep Learning FTW!")]
  | .lenet =>
      [("model_name", RVal.str m.value),
       ("message", RVal.str "LeCNN all the images")]
  | _ =>
      [("model_name", RVal.str m.value),
       ("message", RVal.str "Have some residuals")]

/-- Handler of GET /users/{user_id}/items/{item_id} : item id and owner,
then `q` when truthy, then the fixed description unless `short`. -/
def read_user_item (user_id : Int) (item_id : String) (q : Option String)
    (short : Bool) : Response :=
  let item : Response := [("item_id", RVal.str item_id),
                          ("owner_id", RVal.int user_id)]
  let item := match q with
    | some s => if s = "" then item else dictUpdate item "q" (RVal.str s)
    | none => item
  if short then item
  else dictUpdate item "description"
    (RVal.str "This is an amazing item that has a long description")

/-! ### Validation and binding engine

The engine itself lives in the web framework, outside this repository;
only the constraint declarations (`Path(ge=0, le=1000)`,
`Query(min_length=3, max_length=50, regex=...)`, `Body()`) are in
src/main.py.  The definitions below are therefore modelled from the
specification and instantiated with the declared constraints. -/

/-- The error taxonomy of the specification. -/
inductive ValidationError where
  | missingRequiredParameter (field : String)
  | typeCoercionError (field : String)
  | outOfRange
  | lengthError
  | patternMismatch
  | invalidEnumValue
deriving DecidableEq, Repr

/-- Declared numeric bounds of an integer field: exclusive `gt`/`lt`,
inclusive `ge`/`le`, each optional. -/
structure IntBounds where
  gt : Option Int := none
  ge : Option Int := none
  lt : Option Int := none
  le : Option Int := none
deriving DecidableEq, Repr

/-- Whether `x` is below the declared minimum (exclusive or inclusive). -/
def IntBounds.belowMin (b : IntBounds) (x : Int) : Bool :=
  (match b.gt with
    | some g => decide (x ≤ g)
    | none => false) ||
  (match b.ge with
    | some g => decide (x < g)
    | none => false)

/-- Whether `x` is above the declared maximum (exclusive or inclusive). -/
def IntBounds.aboveMax (b : IntBounds) (x : Int) : Bool :=
  (match b.lt with
    | some l => decide (l ≤ x)
    | none => false) ||
  (match b.le with
    | some l => decide (l < x)
    | none => false)

/-- Modelled from the spec: numeric constraint validation, failing with
`OutOfRange` if the value is below the declared minimum or above the
declared maximum. -/
def validateInt (b : IntBounds) (x : Int) : Except ValidationError Int :=
  if b.belowMin x || b.aboveMax x then Except.error ValidationError.outOfRange
  else Except.ok x

/-- The bounds declared on the path parameter of PUT /items2/{item_id}:
`Path(ge=0, le=1000)`. -/
def itemId2Bounds : IntBounds := { ge := some 0, le := some 1000 }

/-- Declared string constraints: optional length bounds and an optional
regular-expression pattern (given by its source text). -/
structure StrConstraints where
  min_length : Option Nat := none
  max_length : Option Nat := none
  regex : Option String := none
deriving DecidableEq, Repr

/-- Modelled from the spec: regular-expression matching, for the one
pattern shape the source declares — a fully anchored literal pattern of
the form `^lit$`, which matches exactly the string `lit`. -/
def regexMatch (pat s : String) : Bool :=
  match pat.data with
  | '^' :: rest =>
      match rest.getLast? with
      | some '$' => decide (s.data = rest.dropLast)
      | _ => false
  | _ => false

/-- Modelled from the spec: string validation of an optional field with a
declared default.  A missing value short-circuits to the default without
further checks; a supplied value is checked against the length bounds
(`LengthError`) and the pattern (`PatternMismatch`). -/
def validateOptStr (c : StrConstraints) (dflt : Option String)
    (v : Option String) : Except ValidationError (Option String) :=
  match v with
  | none => Except.ok dflt
  | some s =>
      if (match c.min_length with
        | some m => decide (s.length < m)
        | none => false) then Except.error ValidationError.lengthError
      else if (match c.max_length with
        | some m => decide (m < s.length)
        | none => false) then Except.error ValidationError.lengthError
      else if (match c.regex with
        | some p => !regexMatch p s
        | none => false) then Except.error ValidationError.patternMismatch
      else Except.ok (some s)

/-- The constraints declared on query parameter `q` of GET /items3/ :
`min_length=3, max_length=50, regex="^fixed-query$"`. -/
def q3Constraints : StrConstraints :=
  { min_length := some 3, max_length := some 50, regex := some "^fixed-query$" }

/-! ### Wire values and the parameter binder -/

/-- Structured wire values (the JSON-like format bodies arrive in and
responses leave in). -/
inductive JVal where
  | null
  | str (s : String)
  | num (q : ℚ)
  | bool (b : Bool)
  | arr (elems : List JVal)
  | obj (fields : List (String × JVal))

/-- Where a field is bound from. -/
inductive Source where
  | path
  | query
  | body
deriving DecidableEq, Repr

/-- A field specification: internal name, optional wire alias, source,
required flag, optional declared default. -/
structure FieldSpec where
  name : String
  wireAlias : Option String := none
  source : Source
  required : Bool
  dflt : Option JVal := none

/-- An incoming request: raw path and query parameters, and the
top-level keys of the structured body. -/
structure Request where
  path : List (String × String)
  query : List (String × String)
  body : List (String × JVal)

/-- Modelled from the spec: binding of one field — look up by alias if
declared, else by name, in the declared source; a missing value yields
the declared default when there is one, fails with
`MissingRequiredParameter` when the field is required, and is `null`
otherwise. -/
def bindField (req : Request) (f : FieldSpec) : Except ValidationError JVal :=
  let key := match f.wireAlias with
    | some a => a
    | none => f.name
  let raw : Option JVal := match f.source with
    | .path => (req.path.lookup key).map JVal.str
    | .query => (req.query.lookup key).map JVal.str
    | .body => req.body.lookup key
  match raw with
  | some v => Except.ok v
  | none =>
      match f.dflt with
      | some d => Except.ok d
      | none =>
          if f.required then
            Except.error (ValidationError.missingRequiredParameter f.name)
          else Except.ok JVal.null

/-- Modelled from the spec: binding of a whole field list, in order,
short-circuiting at the first failure. -/
def bind (specs : List FieldSpec) (req : Request) :
    Except ValidationError (List (String × JVal)) :=
  match specs with
  | [] => Except.ok []
  | f :: rest =>
      match bindField req f with
      | Except.error e => Except.error e
      | Except.ok v =>
          match bind rest req with
          | Except.error e => Except.error e
          | Except.ok vr => Except.ok ((f.name, v) :: vr)

/-- Modelled from the spec: the dispatcher pipeline — bind, then run the
handler on the validated request; any binding failure is returned
directly and the handler is never consulted. -/
def process (specs : List FieldSpec) (handler : List (String × JVal) → Response)
    (req : Request) : Except ValidationError Response :=
  (bind specs req).map handler

/-- The field specifications of PUT /items4/{item_id} : path `item_id`,
body `item`, body `user`, body `importance` (declared `Body()` with no
default), all required. -/
def items4Specs : List FieldSpec :=
  [{ name := "item_id", source := Source.path, required := true },
   { name := "item", source := Source.body, required := true },
   { name := "user", source := Source.body, required := true },
   { name := "importance", source := Source.body, required := true }]

/-! ### Serialization of Item (modelled from the spec) -/

/-- Modelled from the spec: serialization of an `Item` to the wire's
structured format, optional fields rendered as null, the tag set as an
array of strings. -/
def serializeItem (i : Item) : JVal :=
  JVal.obj
    [("name", JVal.str i.name),
     ("description", match i.description with
       | some d => JVal.str d
       | none => JVal.null),
     ("price", JVal.num i.price),
     ("tax", match i.tax with
       | some t => JVal.num t
       | none => JVal.null),
     ("tags", JVal.arr (i.tags.map JVal.str))]

/-- Parsing of an optional string field. -/
def parseOptStr : JVal → Option (Option String)
  | JVal.null => some none
  | JVal.str s => some (some s)
  | _ => none

/-- Parsing of an optional numeric field. -/
def parseOptNum : JVal → Option (Option ℚ)
  | JVal.null => some none
  | JVal.num q => some (some q)
  | _ => none

/-- Parsing of an array of strings. -/
def parseStrList : List JVal → Option (List String)
  | [] => some []
  | JVal.str s :: rest => (parseStrList rest).map (fun l => s :: l)
  | _ => none

/-- Parsing of a required string field. -/
def parseStr : JVal → Option String
  | JVal.str s => some s
  | _ => none

/-- Parsing of a required numeric field. -/
def parseNum : JVal → Option ℚ
  | JVal.num q => some q
  | _ => none

/-- Parsing of an array value. -/
def parseArr : JVal → Option (List JVal)
  | JVal.arr l => some l
  | _ => none

/-- Modelled from the spec: parsing an `Item` back from its wire form,
reading each declared field out of the structured record. -/
def parseItem (j : JVal) : Option Item :=
  match j with
  | JVal.obj fields => do
      let nv ← fields.lookup "name"
      let n ← parseStr nv
      let dv ← fields.lookup "description"
      let desc ← parseOptStr dv
      let pv ← fields.lookup "price"
      let p ← parseNum pv
      let tv ← fields.lookup "tax"
      let tax ← parseOptNum tv
      let gv ← fields.lookup "tags"
      let ts ← parseArr gv
      let tags ← parseStrList ts
      some { name := n, description := desc, price := p, tax := tax,
             tags := tags }
  | _ => none

/-- The declared constraints of a valid `Item`: positive price and a
description of at most 300 characters when present. -/
def ItemValid (i : Item) : Prop :=
  0 < i.price ∧ (i.description.getD "").length ≤ 300

instance (i : Item) : Decidable (ItemValid i) := by
  unfold ItemValid
  infer_instance

/-! ### Example items -/

/-- The example item of the `Item` schema: price 35.4, tax 3.2. -/
def exampleItem : Item :=
  { name := "Foo", description := some "A very nice Item",
    price := 35.4, tax := some 3.2 }

/-- An item with a non-trivial tag list, for the round-trip example. -/
def taggedItem : Item :=
  { name := "Foo", description := some "A very nice Item",
    price := 35.4, tax := some 3.2, tags := ["electronics", "sale"] }

/-! ### Theorems -/

/-- C4: GET /models/{model_name} maps alexnet to "Deep Learning FTW!",
lenet to "LeCNN all the images" and resnet to "Have some residuals"; the
dispatch agrees with selection by declared enum member, and the third
message is the fallback arm for any member other than the two tested. -/
theorem get_model_dispatch :
    (get_model ModelName.alexnet).lookup "message" =
      some (RVal.str "Deep Learning FTW!") ∧
    (get_model ModelName.lenet).lookup "message" =
      some (RVal.str "LeCNN all the images") ∧
    (get_model ModelName.resnet).lookup "message" =
      some (RVal.str "Have some residuals") ∧
    (∀ m : ModelName, get_model m = get_model_by_member m) ∧
    (∀ m : ModelName, m ≠ ModelName.alexnet → m.value ≠ "lenet" →
      (get_model m).lookup "message" = some (RVal.str "Have some residuals")) := by
  refine ⟨rfl, rfl, rfl, ?_, ?_⟩
  · intro m
    cases m <;> rfl
  · intro m h1 h2
    cases m
    · exact absurd rfl h1
    · rfl
    · exact absurd rfl h2

/-- Witness for C4: the fallback arm fires at the concrete member resnet. -/
theorem get_model_dispatch_witness :
    (get_model ModelName.resnet).lookup "message" =
      some (RVal.str "Have some residuals") :=
  get_model_dispatch.2.2.2.2 ModelName.resnet (by decide) (by decide)

/-- C5: with the declared bounds `ge=0, le=1000` of PUT /items2/{item_id},
an integer is accepted iff it lies in the inclusive range [0, 1000], and
any value outside it is rejected with OutOfRange. -/
theorem validateInt_items2_bounds (x : Int) :
    (validateInt itemId2Bounds x = Except.ok x ↔ 0 ≤ x ∧ x ≤ 1000) ∧
    (¬(0 ≤ x ∧ x ≤ 1000) →
      validateInt itemId2Bounds x = Except.error ValidationError.outOfRange) := by
  have hcond : (itemId2Bounds.belowMin x || itemId2Bounds.aboveMax x) = true ↔
      ¬(0 ≤ x ∧ x ≤ 1000) := by
    simp [IntBounds.belowMin, IntBounds.aboveMax, itemId2Bounds]
    omega
  constructor
  · unfold validateInt
    split_ifs with h
    · simp only [hcond] at h
      constructor
      · intro he
        simp at he
      · intro hx
        exact absurd hx h
    · have hx : 0 ≤ x ∧ x ≤ 1000 := by
        by_contra hc
        exact h (hcond.mpr hc)
      simp [hx]
  · intro hx
    unfold validateInt
    rw [if_pos (hcond.mpr hx)]

/-- Witness for C5: 1001 is rejected with OutOfRange and 7 is accepted. -/
theorem validateInt_items2_bounds_witness :
    validateInt itemId2Bounds 1001 = Except.error ValidationError.outOfRange ∧
    validateInt itemId2Bounds 7 = Except.ok 7 :=
  ⟨(validateInt_items2_bounds 1001).2 (by decide),
   (validateInt_items2_bounds 7).1.mpr (by decide)⟩

/-- C6: for GET /items3/, a supplied value of `q` is accepted iff its
length lies in [3, 50] and it matches the anchored pattern, the pattern
matches exactly the string "fixed-query", and an absent value
short-circuits to the declared default `none`. -/
theorem validateOptStr_items3 :
    (∀ s : String,
      validateOptStr q3Constraints none (some s) = Except.ok (some s) ↔
        3 ≤ s.length ∧ s.length ≤ 50 ∧
          regexMatch "^fixed-query$" s = true) ∧
    (∀ s : String, regexMatch "^fixed-query$" s = true ↔ s = "fixed-query") ∧
    validateOptStr q3Constraints none none = Except.ok none := by
  have hpat : ∀ s : String,
      regexMatch "^fixed-query$" s = true ↔ s = "fixed-query" := by
    intro s
    have hr : regexMatch "^fixed-query$" s =
        decide (s.data = "fixed-query".data) := rfl
    rw [hr, decide_eq_true_eq]
    exact ⟨fun h => String.ext h, fun h => by rw [h]⟩
  refine ⟨?_, hpat, rfl⟩
  intro s
  unfold validateOptStr
  simp only [q3Constraints]
  split_ifs with h1 h2 h3
  · simp only [decide_eq_true_eq] at h1
    constructor
    · intro he
      simp at he
    · intro hx
      omega
  · simp only [decide_eq_true_eq] at h2
    constructor
    · intro he
      simp at he
    · intro hx
      omega
  · constructor
    · intro he
      simp at he
    · intro hx
      rw [hx.2.2] at h3
      simp at h3
  · simp only [decide_eq_true_eq, not_lt] at h1 h2
    simp at h3
    simp [h1, h2, h3]

/-- C8: posting the schema example item (price 35.4, tax 3.2) yields a
response whose price_with_tax field is exactly 38.6. -/
theorem create_item_example_38_6 :
    (create_item exampleItem).lookup "price_with_tax" =
      some (RVal.rat 38.6) := by
  have hne : (3.2 : ℚ) ≠ 0 := by norm_num
  simp [create_item, exampleItem, Item.dict, dictUpdate, List.lookup, hne]
  norm_num

/-- C7: for GET /items/{item_id} and GET /users/{user_id}/items/{item_id},
the response with `short = false` equals the response with `short = true`
plus the fixed description field appended, and the short response has no
description field; all other fields agree. -/
theorem short_flag_controls_description (item_id : String) (q : Option String)
    (user_id : Int) :
    read_item_detail item_id q false =
      read_item_detail item_id q true ++
        [("description",
          RVal.str "This is an amazing item that has a long description")] ∧
    (read_item_detail item_id q true).lookup "description" = none ∧
    read_user_item user_id item_id q false =
      read_user_item user_id item_id q true ++
        [("description",
          RVal.str "This is an amazing item that has a long description")] ∧
    (read_user_item user_id item_id q true).lookup "description" = none := by
  cases q with
  | none => exact ⟨rfl, rfl, rfl, rfl⟩
  | some s =>
      by_cases hs : s = ""
      · subst hs
        exact ⟨rfl, rfl, rfl, rfl⟩
      · refine ⟨?_, ?_, ?_, ?_⟩ <;>
          simp [read_item_detail, read_user_item, dictUpdate, hs, List.lookup]

/-- C10: supplying `q` as the empty string gives exactly the response of
omitting `q`, for GET /users/{user_id}/items/{item_id} and
PUT /items2/{item_id}; the `q` field appears in the output iff the
supplied value is truthy (present and non-empty). -/
theorem empty_q_equals_absent (user_id item_id2 : Int) (item_id : String)
    (short : Bool) (item : Option Item) :
    read_user_item user_id item_id (some "") short =
      read_user_item user_id item_id none short ∧
    update_item2 item_id2 (some "") item = update_item2 item_id2 none item ∧
    (∀ q : Option String,
      ((read_user_item user_id item_id q short).lookup "q" ≠ none ↔
        strTruthy q = true)) ∧
    (∀ q : Option String,
      ((update_item2 item_id2 q item).lookup "q" ≠ none ↔
        strTruthy q = true)) := by
  refine ⟨rfl, rfl, ?_, ?_⟩
  · intro q
    cases q with
    | none =>
        cases short <;>
          simp [read_user_item, strTruthy, dictUpdate, List.lookup]
    | some s =>
        by_cases hs : s = "" <;>
          cases short <;>
            simp [read_user_item, strTruthy, dictUpdate, hs, List.lookup]
  · intro q
    cases q with
    | none =>
        cases item <;>
          simp [update_item2, strTruthy, dictUpdate, List.lookup]
    | some s =>
        by_cases hs : s = "" <;>
          cases item <;>
            simp [update_item2, strTruthy, dictUpdate, hs, List.lookup]

/-- C1: a PUT /items4/{item_id} request whose body has `item` and `user`
but lacks `importance` fails binding with MissingRequiredParameter for
`importance`, for every handler — the handler is never invoked; and, for
every endpoint, a binding failure makes the pipeline return that error
without consulting the handler. -/
theorem items4_missing_importance_short_circuits :
    (∀ (req : Request) (vi vu : JVal) (pid : String)
        (handler : List (String × JVal) → Response),
      req.path.lookup "item_id" = some pid →
      req.body.lookup "item" = some vi →
      req.body.lookup "user" = some vu →
      req.body.lookup "importance" = none →
      process items4Specs handler req =
        Except.error (ValidationError.missingRequiredParameter "importance")) ∧
    (∀ (specs : List FieldSpec) (req : Request) (e : ValidationError)
        (handler : List (String × JVal) → Response),
      bind specs req = Except.error e →
      process specs handler req = Except.error e) := by
  constructor
  · intro req vi vu pid handler h1 h2 h3 h4
    have hb : bind items4Specs req =
        Except.error (ValidationError.missingRequiredParameter "importance") := by
      simp [items4Specs, bind, bindField, h1, h2, h3, h4]
    simp [process, hb, Except.map]
  · intro specs req e handler hb
    simp [process, hb, Except.map]

/-- Witness for C1: a concrete request with the importance key absent. -/
theorem items4_missing_importance_witness :
    process items4Specs (fun _ => [])
      (Request.mk [("item_id", "5")] []
        [("item", JVal.obj []), ("user", JVal.obj [])]) =
      Except.error (ValidationError.missingRequiredParameter "importance") :=
  items4_missing_importance_short_circuits.1
    (Request.mk [("item_id", "5")] []
      [("item", JVal.obj []), ("user", JVal.obj [])])
    (JVal.obj []) (JVal.obj []) "5" (fun _ => []) rfl rfl rfl rfl

/-- C3: POST /items/ returns the item fields plus `price_with_tax =
price + tax` when the tax is present and non-zero, and returns exactly
the item fields, with no price_with_tax key, when the tax is absent or
zero. -/
theorem create_item_tax_shaping (i : Item) :
    (∀ t : ℚ, i.tax = some t → t ≠ 0 →
      create_item i =
        i.dict ++ [("price_with_tax", RVal.rat (i.price + t))] ∧
      (create_item i).lookup "price_with_tax" =
        some (RVal.rat (i.price + t))) ∧
    (i.tax = none ∨ i.tax = some 0 →
      create_item i = i.dict ∧
      (create_item i).lookup "price_with_tax" = none) := by
  constructor
  · intro t ht hne
    have hc : create_item i =
        dictUpdate i.dict "price_with_tax" (RVal.rat (i.price + t)) := by
      simp [create_item, ht, hne]
    constructor
    · rw [hc]
      rfl
    · rw [hc]
      rfl
  · intro h
    rcases h with h | h
    · have hc : create_item i = i.dict := by
        simp [create_item, h]
      exact ⟨hc, by rw [hc]; rfl⟩
    · have hc : create_item i = i.dict := by
        simp [create_item, h]
      exact ⟨hc, by rw [hc]; rfl⟩

/-- Witness for C3: the schema example item takes the tax branch; an
item with no tax produces no price_with_tax field. -/
theorem create_item_tax_shaping_witness :
    create_item exampleItem =
      exampleItem.dict ++
        [("price_with_tax", RVal.rat (exampleItem.price + 3.2))] ∧
    (create_item (Item.mk "Bar" none 2 none [])).lookup "price_with_tax" =
      none :=
  ⟨((create_item_tax_shaping exampleItem).1 3.2 rfl (by norm_num)).1,
   ((create_item_tax_shaping (Item.mk "Bar" none 2 none [])).2
     (Or.inl rfl)).2⟩

/-- Taking up to the length of the list is the same as taking freely. -/
lemma take_min_length {α : Type} (l : List α) (k : Nat) :
    l.take (min k l.length) = l.take k := by
  rcases Nat.le_total k l.length with h | h
  · rw [min_eq_left h]
  · rw [min_eq_right h, List.take_length, List.take_of_length_le h]

/-- A Python slice with non-negative endpoints `a` and `a + m` is the
clipped sub-sequence: drop `a` elements, then take at most `m`. -/
lemma pySlice_nonneg {α : Type} (l : List α) (a m : Nat) :
    pySlice l (a : Int) ((a : Int) + (m : Int)) = (l.drop a).take m := by
  unfold pySlice sliceIdx
  have hnn1 : ¬((a : Int) < 0) := by omega
  have hnn2 : ¬((a : Int) + (m : Int) < 0) := by omega
  rw [if_neg hnn1, if_neg hnn2]
  have ht1 : ((a : Int) + (m : Int)).toNat = a + m := by omega
  have ht2 : ((a : Int)).toNat = a := by omega
  rw [ht1, ht2, take_min_length]
  rcases Nat.le_total a l.length with h | h
  · rw [min_eq_left h]
    exact (List.take_drop a m l).symm
  · rw [min_eq_right h]
    have h2 : l.drop a = [] := List.drop_eq_nil_of_le h
    rw [h2, List.take_nil]
    apply List.drop_eq_nil_of_le
    rw [List.length_take]
    exact Nat.min_le_right _ _

/-- C2: GET /items/ returns the clipped sub-sequence of `fake_items_db`
starting at `skip` with at most `limit` elements (for non-negative
arguments, the Python slice coincides with drop-then-take); a `skip` at
or beyond the length yields the empty list; and equal arguments give
equal results. -/
theorem read_item_list_paginates (skip limit : Int) :
    (0 ≤ skip → 0 ≤ limit →
      read_item_list skip limit =
        (fake_items_db.drop skip.toNat).take limit.toNat) ∧
    ((fake_items_db.length : Int) ≤ skip → read_item_list skip limit = []) ∧
    (∀ skip2 limit2 : Int, skip2 = skip → limit2 = limit →
      read_item_list skip2 limit2 = read_item_list skip limit) := by
  refine ⟨?_, ?_, ?_⟩
  · intro hs hl
    obtain ⟨a, rfl⟩ := Int.eq_ofNat_of_zero_le hs
    obtain ⟨m, rfl⟩ := Int.eq_ofNat_of_zero_le hl
    simpa [read_item_list] using pySlice_nonneg fake_items_db a m
  · intro h
    have hlen : fake_items_db.length = 3 := rfl
    rw [hlen] at h
    unfold read_item_list pySlice
    have hstart : sliceIdx fake_items_db.length skip = 3 := by
      unfold sliceIdx
      rw [if_neg (by omega : ¬skip < 0), hlen]
      omega
    rw [hstart]
    apply List.drop_eq_nil_of_le
    rw [List.length_take, hlen]
    exact Nat.min_le_right _ _
  · intro skip2 limit2 h1 h2
    rw [h1, h2]

/-- Witness for C2: skip 1 limit 10 gives the clipped tail, skip 5 gives
the empty list. -/
theorem read_item_list_paginates_witness :
    read_item_list 1 10 =
      (fake_items_db.drop (1 : Int).toNat).take (10 : Int).toNat ∧
    read_item_list 5 2 = [] :=
  ⟨(read_item_list_paginates 1 10).1 (by decide) (by decide),
   (read_item_list_paginates 5 2).2.1 (by decide)⟩

/-- Parsing an array of serialized strings recovers the original list. -/
lemma parseStrList_map (l : List String) :
    parseStrList (l.map JVal.str) = some l := by
  induction l with
  | nil => rfl
  | cons s rest ih => simp [parseStrList, ih]

/-- C9: serializing any valid Item to the wire format and parsing it
back yields the original item, field for field. -/
theorem item_roundtrip (i : Item) (hv : ItemValid i) :
    parseItem (serializeItem i) = some i := by
  obtain ⟨n, d, p, t, tg⟩ := i
  have hred : parseItem (serializeItem (Item.mk n d p t tg)) =
      (parseStrList (tg.map JVal.str)).bind
        (fun tags => some (Item.mk n d p t tags)) := by
    cases d <;> cases t <;> rfl
  rw [hred, parseStrList_map]
  rfl

/-- Witness for C9: the tagged example item is valid and round-trips. -/
theorem item_roundtrip_witness :
    ItemValid taggedItem ∧
    parseItem (serializeItem taggedItem) = some taggedItem :=
  ⟨⟨by norm_num [taggedItem], by decide⟩,
   item_roundtrip taggedItem ⟨by norm_num [taggedItem], by decide⟩⟩

end StudyFastapi
